import Mathlib

/-!
Verification development for `src/datafed_torchflow/pytorch.py` (class
`TorchLogger`): a shallow embedding of the metadata-extraction engine
(`getMetadata`), the notebook-resolution step (`save_notebook`), the
checkpoint orchestrator (`save`, `reset`), and theorems about them.

Python values are modelled by `PyValue`: a record of the observable
properties that `getMetadata` inspects (runtime type name, `isinstance`
facts, callability, shape, whether `json.dumps` / `str` succeed, and the
outputs the external serializer collaborators would produce for the
value).  External collaborators (`serialize_model`,
`serialize_pytorch_optimizer`, `extract_instance_attributes`,
`getNotebookMetadata`, `get_system_info`, the DataFed client) live outside
`src/`; their outputs are carried as data on `PyValue` or on the
environment records, and the DataFed client is modelled as an explicit
remote-state transition.
-/

set_option autoImplicit false

/-- JSON-equivalent values: the target serialization format. -/
inductive JVal where
  | null
  | bool (b : Bool)
  | num (n : Int)
  | str (s : String)
  | arr (xs : List JVal)
  | obj (kvs : List (String × JVal))

/-- `charsLead p s`: `p` is a leading run of `s` (character lists). -/
def charsLead : List Char → List Char → Bool
  | [], _ => true
  | _ :: _, [] => false
  | a :: p, b :: s => a == b && charsLead p s

/-- `charsSub p s`: `p` occurs contiguously somewhere in `s`
(the semantics of Python's `in` on strings). -/
def charsSub (p : List Char) : List Char → Bool
  | [] => p.isEmpty
  | c :: rest => charsLead p (c :: rest) || charsSub p rest

/-- Python `pat in hay` for strings. -/
def strHasSub (hay pat : String) : Bool :=
  charsSub pat.data hay.data

/-- Python `s.startswith(pre)`. -/
def strStarts (s pre : String) : Bool :=
  charsLead pre.data s.data

/-- Python `s.casefold()` (ASCII lowering, which is what the compared
literals in the source require). -/
def casefold (s : String) : String :=
  String.mk (s.data.map Char.toLower)

/-- Python tuple comparison `a < b` (lexicographic), as used by
`value.shape < self.input_data_shape` in `getMetadata`. -/
def tupLt : List Nat → List Nat → Bool
  | [], [] => false
  | [], _ :: _ => true
  | _ :: _, [] => false
  | a :: p, b :: q => if a < b then true else if b < a then false else tupLt p q

/-- The observable properties of a Python value that `getMetadata`
inspects, plus the outputs of the external serializer collaborators for
that value.  `jsonDumps`/`tolistJson` are `some _` exactly when
`json.dumps` succeeds on the value / on `value.tolist()`; `strRaises` is
true when `str(value)` raises one of the exception types the source
catches (`TypeError`, `ValueError`, `json.JSONDecodeError`). -/
structure PyInfo where
  /-- `str(type(value))`, e.g. `"<class 'torch.Tensor'>"`. -/
  typeName : String := ""
  /-- `isinstance(value, str)`. -/
  isStr : Bool := false
  /-- `isinstance(value, list)`. -/
  isList : Bool := false
  /-- `isinstance(value, (np.ndarray, torch.Tensor))`. -/
  isTensor : Bool := false
  /-- `value.shape` (meaningful when `isTensor`). -/
  shape : List Nat := []
  /-- `some j` when `json.dumps(value.tolist())` succeeds with JSON `j`. -/
  tolistJson : Option JVal := none
  /-- `str(value.tolist())`. -/
  tolistStr : String := ""
  /-- `callable(value)`. -/
  isCallable : Bool := false
  /-- `type(value) is type`. -/
  isTypeObj : Bool := false
  /-- `type(value) is types.ModuleType`. -/
  isModule : Bool := false
  /-- `type(value) is types.FunctionType`. -/
  isFunction : Bool := false
  /-- `type(value) is datafed.CommandLib.API`. -/
  isAPI : Bool := false
  /-- `type(value) is torch.utils.data.DataLoader`. -/
  isDataLoaderTy : Bool := false
  /-- `type(value) is types.NoneType`. -/
  isNoneVal : Bool := false
  /-- `type(value) is types.MethodType`. -/
  isMethod : Bool := false
  /-- `type(value) is pathlib.PosixPath`. -/
  isPath : Bool := false
  /-- `type(value) is torch.device`. -/
  isDevice : Bool := false
  /-- `hasattr(value, "__dict__")`. -/
  hasDictAttr : Bool := false
  /-- Output of the collaborator `extract_instance_attributes(obj=value)`. -/
  instAttrs : List (String × JVal) := []
  /-- Output of the collaborator `serialize_model(value)`. -/
  modelSer : List (String × JVal) := []
  /-- Output of the collaborator `serialize_pytorch_optimizer(value)`. -/
  optimSer : JVal := JVal.null
  /-- `isinstance(value, dict)`. -/
  isDict : Bool := false
  /-- `len(value)` when the value is a dict. -/
  dictLen : Nat := 0
  /-- `str(type(value[list(value.keys())[0]]))` when the value is a
  non-empty dict. -/
  dictFirstTypeName : String := ""
  /-- `some j` when `json.dumps(value)` succeeds with JSON `j`. -/
  jsonDumps : Option JVal := none
  /-- `str(value)` raises one of the caught exception types. -/
  strRaises : Bool := false
  /-- `str(value)` (meaningful when `strRaises = false`). -/
  strF : String := ""

/-- A Python value: its observable properties plus, when it is a list,
its elements. -/
inductive PyValue where
  | mk (info : PyInfo) (elems : List PyValue)

/-- Observable properties of the value. -/
def PyValue.info : PyValue → PyInfo
  | .mk i _ => i

/-- The elements of the value when it is a Python list. -/
def PyValue.elems : PyValue → List PyValue
  | .mk _ es => es

/-- `sum(len(str(s)) for s in value)` over the elements of a list. -/
def sumStrLens (es : List PyValue) : Nat :=
  (es.map (fun e => e.info.strF.length)).sum

/-- An entry stored in the metadata record.  The constructors record
which Python object was stored so that JSON-representability of the
record can be judged afterwards. -/
inductive MEntry where
  /-- The Python value itself was stored. -/
  | ofVal (v : PyValue)
  /-- `str(...)` of something was stored. -/
  | ofStr (s : String)
  /-- `value.tolist()` was stored. -/
  | ofTolist (v : PyValue)
  /-- A collaborator-produced JSON dict was stored. -/
  | ofObj (kvs : List (String × JVal))
  /-- A collaborator-produced JSON value was stored. -/
  | ofJson (j : JVal)

/-- Whether a stored entry is representable in JSON: `json.dumps` of the
stored object succeeds. -/
def entryRepr : MEntry → Bool
  | .ofVal v => v.info.jsonDumps.isSome
  | .ofStr _ => true
  | .ofTolist v => v.info.tolistJson.isSome
  | .ofObj _ => true
  | .ofJson _ => true

/-- Python dict assignment `d[k] = e` on an association list: replace the
first binding of `k` in place, else append. -/
def dinsert (l : List (String × MEntry)) (k : String) (e : MEntry) :
    List (String × MEntry) :=
  match l with
  | [] => [(k, e)]
  | p :: rest => if p.1 == k then (k, e) :: rest else p :: dinsert rest k e

/-- Dict lookup `d[k]` on an association list (first binding). -/
def dlookup (l : List (String × MEntry)) (k : String) : Option MEntry :=
  match l with
  | [] => none
  | p :: rest => if p.1 == k then some p.2 else dlookup rest k

/-- Python `d.update(other)`: insert each binding of `other` in order. -/
def dinsertAll (l : List (String × MEntry)) :
    List (String × MEntry) → List (String × MEntry)
  | [] => l
  | (k, e) :: rest => dinsertAll (dinsert l k e) rest

/-- `d[k] = j` for JSON association lists. -/
def djinsert (l : List (String × JVal)) (k : String) (j : JVal) :
    List (String × JVal) :=
  match l with
  | [] => [(k, j)]
  | p :: rest => if p.1 == k then (k, j) :: rest else p :: djinsert rest k j

/-- Python `serialized.update(attrs)` on JSON dicts, as done to the
`serialize_model` output in the model-architecture branch. -/
def dictUpdJ (l : List (String × JVal)) :
    List (String × JVal) → List (String × JVal)
  | [] => l
  | (k, j) :: rest => dictUpdJ (djinsert l k j) rest

/-- The `DataFed_record_metadata` dict built by `getMetadata`:
`{"Model Parameters": {"Model Hyperparameters": …, "Model Architecture": …,
<free keys>}, "System Information": …}`.  The two fixed sub-dicts are the
`hyper` and `arch` fields; free keys assigned directly under
`"Model Parameters"` are the `params` field. -/
structure MetaRecord where
  hyper : List (String × MEntry) := []
  arch : List (String × MEntry) := []
  params : List (String × MEntry) := []
  sysInfo : JVal := JVal.null

/-- A line appended to the diagnostic log file for a value that failed
both conversions (the source writes the timestamp, the key, the value's
type and repr, and the traceback; the key and type identify the entry). -/
structure MLogEntry where
  key : String
  tyName : String

/-- State threaded through the `local_vars` loop of `getMetadata`: the
record under construction, the diagnostic log file's appended entries,
and the warnings actually emitted to the caller (the long-list branch
evaluates `Warning(warning_message)`, which constructs an exception
object and discards it, so no branch ever appends a warning). -/
structure MState where
  md : MetaRecord := {}
  log : List MLogEntry := []
  warns : List String := []

/-- Exceptions that can escape the `local_vars` loop: a failure to open
or append the diagnostic log file (the `with open(...)` is unguarded),
or an exception propagating out of an unguarded `str(value)` call. -/
inductive RunErr where
  | ioErr
  | strRaise

/-- Exceptions raised by the modelled methods. -/
inductive PyErr where
  /-- `raise ValueError(msg)`. -/
  | valueError (msg : String)
  /-- An exception escaping the `local_vars` loop. -/
  | run (e : RunErr)
  /-- A DataFed-client call failing (e.g. `dataView` of an unknown id). -/
  | svcError

/-- Configuration of the logger relevant to `getMetadata`:
`self.model_dict.keys()`, `self.input_data_shape`, `self.logging`,
whether the log file can be opened for append, and the collaborator
outputs merged into the record at the end (`getNotebookMetadata`,
`getpass.getuser`, the timestamp, `get_system_info`). -/
structure Ctx where
  archNames : List String := []
  inputShape : Option (List Nat) := none
  logging : Bool := false
  logWriteOk : Bool := true
  notebookMeta : List (String × JVal) := []
  user : String := "user0"
  time : String := "2026-01-01 00:00:00"
  sysInfo : JVal := JVal.null

/-- The exact optimizer-alias list of the source:
`["optimizer", "optim", "optim_", "optimizer_"]`. -/
def optimAliases : List String := ["optimizer", "optim", "optim_", "optimizer_"]

/-- The casefolded stopword list of the source's exclusion filter. -/
def stopwords : List String :=
  ["checkpoint", "self", "local_vars", "model_dict", "model_hyperparameters",
   "i", "image", "key", "value"]

/-- `key.casefold() in ["optimizer", "optim", "optim_", "optimizer_"]`,
the test used by the optimizer branches. -/
def isOptimName (k : String) : Bool :=
  optimAliases.contains (casefold k)

/-- The big exclusion conjunction of `getMetadata` (the `if` guarding the
whole per-variable body): the pair `(key, value)` contributes to the
record only when this is true.  The callable clause
`not (callable(value) and key not in model_architecture_names) or
 not (callable(value) and key not in ["optimizer", …])`
simplifies to `not callable(value) or key in model_architecture_names or
key in the (non-casefolded) alias list`, which is transcribed directly. -/
def included (ctx : Ctx) (k : String) (v : PyValue) : Bool :=
  !(strStarts k "_") &&
  !(stopwords.contains (casefold k)) &&
  !(strHasSub (casefold k) "datafed") &&
  !(strHasSub (casefold k) "globus") &&
  !(strHasSub (casefold v.info.typeName) "data") &&
  !(strHasSub (casefold v.info.typeName) "dataloader") &&
  (!v.info.isCallable || ctx.archNames.contains k || optimAliases.contains k) &&
  !(v.info.isTypeObj || v.info.isModule || v.info.isFunction ||
    v.info.isAPI || v.info.isDataLoaderTy || v.info.isNoneVal ||
    v.info.isMethod)

/-- Store an entry under `"Model Architecture"`. -/
def storeArch (st : MState) (k : String) (e : MEntry) : MState :=
  { st with md := { st.md with arch := dinsert st.md.arch k e } }

/-- Store an entry under `"Model Hyperparameters"`. -/
def storeHyper (st : MState) (k : String) (e : MEntry) : MState :=
  { st with md := { st.md with hyper := dinsert st.md.hyper k e } }

/-- Store an entry directly under `"Model Parameters"`. -/
def storeParam (st : MState) (k : String) (e : MEntry) : MState :=
  { st with md := { st.md with params := dinsert st.md.params k e } }

/-- The `key in model_architecture_names` branch: optimizer-state
extraction for non-string values whose casefolded name is an optimizer
alias, else model-state extraction updated with the extracted instance
attributes. -/
def archBranch (st : MState) (k : String) (v : PyValue) : Except RunErr MState :=
  if !v.info.isStr && isOptimName k then
    .ok (storeArch st k (.ofJson v.info.optimSer))
  else
    .ok (storeArch st k (.ofObj (dictUpdJ v.info.modelSer v.info.instAttrs)))

/-- The `isinstance(value, list)` branch: compute
`sum(len(str(s)) for s in value)` (an exception from `str` propagates),
unwrap single-element lists, keep short lists, and drop long lists — the
source builds `warning_message` and evaluates `Warning(warning_message)`,
which constructs an exception object that is immediately discarded, so
nothing is emitted. -/
def listBranch (st : MState) (k : String) (v : PyValue) : Except RunErr MState :=
  if v.elems.any (fun e => e.info.strRaises) then
    .error .strRaise
  else if sumStrLens v.elems < 1000 then
    match v.elems with
    | [e] => .ok (storeParam st k (.ofVal e))
    | _ => .ok (storeParam st k (.ofVal v))
  else
    .ok st

/-- The `key in model_hyperparameters.keys()` branch: a tensor/array is
kept (as `value.tolist()`) only when `input_data_shape` is configured and
`value.shape < input_data_shape` under Python tuple comparison; every
other value is stored as-is with no representability check. -/
def hyperBranch (ctx : Ctx) (st : MState) (k : String) (v : PyValue) :
    Except RunErr MState :=
  if v.info.isTensor && ctx.inputShape.isSome then
    if tupLt v.info.shape (ctx.inputShape.getD []) then
      .ok (storeHyper st k (.ofTolist v))
    else
      .ok st
  else
    .ok (storeHyper st k (.ofVal v))

/-- The `isinstance(value, (np.ndarray, torch.Tensor))` branch: only
with a configured `input_data_shape` and a tuple-smaller shape is
`value.tolist()` stored, string-converted when `json.dumps` on it
fails (the bare `except` there catches everything). -/
def tensorBranch (ctx : Ctx) (st : MState) (k : String) (v : PyValue) :
    Except RunErr MState :=
  match ctx.inputShape with
  | some shp =>
    if tupLt v.info.shape shp then
      match v.info.tolistJson with
      | some _ => .ok (storeParam st k (.ofTolist v))
      | none => .ok (storeParam st k (.ofStr v.info.tolistStr))
    else
      .ok st
  | none => .ok st

/-- The `type(value) in [pathlib.PosixPath, torch.device]` branch:
store `str(value)` (the call is unguarded, so an exception from it
propagates). -/
def pathBranch (st : MState) (k : String) (v : PyValue) : Except RunErr MState :=
  if v.info.strRaises then
    .error .strRaise
  else
    .ok (storeParam st k (.ofStr v.info.strF))

/-- The `hasattr(value, "__dict__")` branch: store the extracted
instance attributes when non-empty, otherwise store nothing. -/
def attrBranch (st : MState) (k : String) (v : PyValue) : Except RunErr MState :=
  if v.info.instAttrs.length != 0 then
    .ok (storeParam st k (.ofObj v.info.instAttrs))
  else
    .ok st

/-- The non-empty-dict branch: when the type name of the first value
lacks an underscore, try `json.dumps(value)` and fall back to
`str(value)` (unguarded inside the `except`); otherwise store
nothing. -/
def dictBranch (st : MState) (k : String) (v : PyValue) : Except RunErr MState :=
  if !(strHasSub v.info.dictFirstTypeName "_") then
    match v.info.jsonDumps with
    | some _ => .ok (storeParam st k (.ofVal v))
    | none =>
      if v.info.strRaises then
        .error .strRaise
      else
        .ok (storeParam st k (.ofStr v.info.strF))
  else
    .ok st

/-- The final `else`: try `json.dumps(value)`, fall back to
`str(value)`, and on a second failure append one diagnostic entry to the
log file when logging is enabled — the `with open(...)` is unguarded, so
a failure to open the log file propagates. -/
def defaultBranch (ctx : Ctx) (st : MState) (k : String) (v : PyValue) :
    Except RunErr MState :=
  match v.info.jsonDumps with
  | some _ => .ok (storeParam st k (.ofVal v))
  | none =>
    if !v.info.strRaises then
      .ok (storeParam st k (.ofStr v.info.strF))
    else if ctx.logging then
      if ctx.logWriteOk then
        .ok { st with log := st.log ++ [⟨k, v.info.typeName⟩] }
      else
        .error .ioErr
    else
      .ok st

/-- One iteration of the `for key, value in local_vars` loop of
`getMetadata`: the exclusion filter, then the `elif` chain in source
order. -/
def procVar (ctx : Ctx) (hn : List String) (st : MState) :
    String × PyValue → Except RunErr MState
  | (k, v) =>
    if included ctx k v then
      if ctx.archNames.contains k then
        archBranch st k v
      else if !v.info.isStr && isOptimName k then
        .ok (storeArch st k (.ofJson v.info.optimSer))
      else if v.info.isList then
        listBranch st k v
      else if hn.contains k then
        hyperBranch ctx st k v
      else if v.info.isTensor then
        tensorBranch ctx st k v
      else if v.info.isPath || v.info.isDevice then
        pathBranch st k v
      else if v.info.hasDictAttr then
        attrBranch st k v
      else if v.info.isDict && v.info.dictLen != 0 then
        dictBranch st k v
      else
        defaultBranch ctx st k v
    else
      .ok st

/-- The `for key, value in local_vars` loop: left-to-right, stopping at
the first propagated exception. -/
def runVars (ctx : Ctx) (hn : List String) :
    MState → List (String × PyValue) → Except RunErr MState
  | st, [] => .ok st
  | st, kv :: rest =>
    match procVar ctx hn st kv with
    | .ok st2 => runVars ctx hn st2 rest
    | .error e => .error e

/-- The record updates after the loop: merge `getNotebookMetadata`'s dict
and `{"user": …, "timestamp": …}` into `"Model Parameters"`, and set
`"System Information"`. -/
def finalize (ctx : Ctx) (r : MetaRecord) : MetaRecord :=
  { r with
    params :=
      dinsertAll
        (dinsertAll r.params (ctx.notebookMeta.map (fun p => (p.1, MEntry.ofJson p.2))))
        [("user", .ofStr ctx.user), ("timestamp", .ofStr ctx.time)],
    sysInfo := ctx.sysInfo }

/-- `TorchLogger.getMetadata(local_vars, model_hyperparameters)`:
`None` checks first (the configuration errors), then the loop, then the
final merges.  `model_hyperparameters` enters only through
`model_hyperparameters.keys()`, so it is passed as its key list. -/
def getMetadata (ctx : Ctx) :
    Option (List (String × PyValue)) → Option (List String) →
      Except PyErr MState
  | none, _ => .error (.valueError "local_vars cannot be None")
  | some _, none => .error (.valueError "model_hyperparameters cannot be None")
  | some lv, some hn =>
    match runVars ctx hn {} lv with
    | .error e => .error (.run e)
    | .ok st => .ok { st with md := finalize ctx st.md }

/-- `all entries of an association list are JSON-representable`. -/
def allRepr (l : List (String × MEntry)) : Bool :=
  l.all (fun p => entryRepr p.2)

/-- Every value reachable from the record is JSON-representable (the
`System Information`, notebook, user and timestamp entries are
representable by construction, so only the three entry lists matter). -/
def recordAllRepr (r : MetaRecord) : Bool :=
  allRepr r.hyper && allRepr r.arch && allRepr r.params

/-- The key occurs somewhere in the record (as a hyperparameter name, an
architecture block name, or a free `Model Parameters` key). -/
def recordHasKey (r : MetaRecord) (k : String) : Bool :=
  (dlookup r.hyper k).isSome || (dlookup r.arch k).isSome ||
    (dlookup r.params k).isSome

/-- Modelled from the spec: the spec's words "its shape is element-wise
smaller than `input_shape`" — same length and strictly smaller in every
coordinate.  Used only to compare the spec's wording with the source's
tuple comparison `value.shape < self.input_data_shape` (`tupLt`). -/
def specElemwiseSmaller (xs ys : List Nat) : Bool :=
  xs.length == ys.length && (List.zip xs ys).all (fun p => decide (p.1 < p.2))

/-- The result of `upload_dataset_to_DataFed()`: the source branches on
`isinstance(self.dataset_id, str)` / `isinstance(self.dataset_id, list)`
/ `None`. -/
inductive DsId where
  | nothing
  | one (s : String)
  | many (l : List String)

/-- The instance fields of `TorchLogger` mutated by the orchestrator:
`self.notebook_record_id`, `self.current_checkpoint_id`,
`self.dataset_id`. -/
structure LoggerSt where
  notebookRecordId : Option String := none
  currentCheckpointId : Option String := none
  datasetId : DsId := .nothing

/-- `TorchLogger.reset()`: clears the lineage pointer. -/
def reset (st : LoggerSt) : LoggerSt :=
  { st with currentCheckpointId := none }

/-- The remote state of the data service visible to `save_notebook`:
the notebook records as `(record id, stored checksum)` pairs — the
checksum is the `["script"]["checksum"]` field of the record's metadata —
plus the id `data_record_create` hands out next. -/
structure Remote where
  records : List (String × String) := []
  freshId : String := "d/1"

/-- The checksum stored in the metadata of record `i`
(`json.loads(dataView(i)…).["script"]["checksum"]`). -/
def rlookup (rm : Remote) (i : String) : Option String :=
  (rm.records.find? (fun p => p.1 == i)).map (fun p => p.2)

/-- The collaborator inputs of `save_notebook`: the configured script
path (`self.__file__`), the result of
`get_notebook_DataFed_ID_from_path_and_title` (`none` models the raised
not-found exception), the checksum produced by `getNotebookMetadata`
(`none` models it returning `None`), and the
`upload_dataset_to_DataFed()` result used on the upload path. -/
structure NbEnv where
  file : Option String := none
  lookupId : Option String := none
  nbChecksum : Option String := none
  datasetUpload : DsId := .nothing

/-- `TorchLogger.save_notebook()`: accept a `d/…` path as a record id
as-is; otherwise look the notebook up by path and title; compute the new
checksum; when a record id is known, fetch its stored checksum; create a
new record exactly when the checksums differ (a fresh id is handed out
and the `(id, checksum)` pair joins the remote records), else reuse the
existing id and leave the remote state unchanged. -/
def save_notebook (env : NbEnv) (st : LoggerSt) (rm : Remote) :
    Except PyErr (LoggerSt × Remote) :=
  match env.file with
  | none => .ok (st, rm)
  | some f =>
    let nbId : Option String :=
      if strStarts f "d/" then some f
      else
        match env.lookupId with
        | some i => some i
        | none => st.notebookRecordId
    match env.nbChecksum with
    | none => .error (.valueError "Failed to get metadata for notebook")
    | some newCk =>
      match nbId with
      | some i =>
        match rlookup rm i with
        | none => .error .svcError
        | some oldCk =>
          if newCk != oldCk then
            .ok ({ st with notebookRecordId := some rm.freshId,
                           datasetId := env.datasetUpload },
                 { rm with records := rm.records ++ [(rm.freshId, newCk)] })
          else
            .ok ({ st with notebookRecordId := some i }, rm)
      | none =>
        .ok ({ st with notebookRecordId := some rm.freshId,
                       datasetId := env.datasetUpload },
             { rm with records := rm.records ++ [(rm.freshId, newCk)] })

/-- The calls `save` makes on the data-service client, in order. -/
inductive SvcCall where
  | uploadDataset
  | addDerivedFrom (ids : List String)
  | createRecord (title : String)
  | uploadFile (id : String)

/-- `[x]` when present, `[]` when absent (Python's
`[id for id in … if id is not None]` per candidate). -/
def optList : Option String → List String
  | none => []
  | some s => [s]

/-- The identifiers a dataset-upload result contributes to the
dependency list. -/
def dsList : DsId → List String
  | .nothing => []
  | .one s => [s]
  | .many l => l

/-- The `ids_to_add` construction of `save`: filter `None` out of
`[notebook_record_id, current_checkpoint_id]`, then add the dataset id
(string case) or append every element of the dataset id list (list case
— the guard inside that loop tests `self.dataset_id is not None`, which
is always true there, so every element is appended). -/
def idsToAdd (nb cur : Option String) (ds : DsId) : List String :=
  match ds with
  | .one s => optList nb ++ optList cur ++ [s]
  | .many l => optList nb ++ optList cur ++ l
  | .nothing => optList nb ++ optList cur

/-- The collaborator inputs of `save`: the `upload_dataset_to_DataFed()`
result and the record id `data_record_create` returns. -/
structure SaveEnv where
  datasetUpload : DsId := .nothing
  newRecordId : String := "d/2"

/-- `self.notebook_record_id if self.notebook_record_id and
len(self.notebook_record_id) > 0 else None`: `None` and the empty string
normalize to `None`. -/
def normNbId : Option String → Option String
  | some s => if s.length != 0 then some s else none
  | none => none

/-- `TorchLogger.save(record_file_name, datafed, …)`, DataFed branch:
normalize the notebook id (`None`/empty become `None`), upload the
dataset, build `ids_to_add`, call `addDerivedFrom` only when the list is
non-empty, assemble the metadata (which raises the configuration errors
of `getMetadata`), create the record, upload the file, and replace
`self.current_checkpoint_id` with the created id.  The result pairs the
trace of data-service calls actually made with the outcome.  The local
`torch.save` persistence step touches only the filesystem and no
modelled state, so it is not represented. -/
def save (env : SaveEnv) (ctx : Ctx) (st : LoggerSt) (recordTitle : String)
    (datafed : Bool) (localVars : Option (List (String × PyValue)))
    (modelHyper : Option (List String)) :
    List SvcCall × Except PyErr LoggerSt :=
  if datafed then
    let nb : Option String := normNbId st.notebookRecordId
    let cur := st.currentCheckpointId
    let ds := env.datasetUpload
    let ids := idsToAdd nb cur ds
    let trace :=
      [SvcCall.uploadDataset] ++
        (if ids.isEmpty then [] else [SvcCall.addDerivedFrom ids])
    match getMetadata ctx localVars modelHyper with
    | .error e => (trace, .error e)
    | .ok _ =>
      (trace ++ [SvcCall.createRecord recordTitle, SvcCall.uploadFile env.newRecordId],
       .ok { notebookRecordId := nb,
             currentCheckpointId := some env.newRecordId,
             datasetId := ds })
  else
    ([], .ok st)

/-- Whether a result of `getMetadata` is one of its two configuration
errors (a raised `ValueError`). -/
def isConfigError : Except PyErr MState → Bool
  | .error (.valueError _) => true
  | _ => false

/-- A torch tensor of shape `(1, 5000)` whose `tolist()` is a JSON list
but on which `json.dumps` itself raises `TypeError`. -/
def vTensor : PyValue :=
  .mk { typeName := "<class 'torch.Tensor'>", isTensor := true,
        shape := [1, 5000], tolistJson := some (JVal.arr []),
        tolistStr := "[[0.0]]", jsonDumps := none } []

/-- A logger configured without `input_data_shape`. -/
def ctxShapeNone : Ctx := { inputShape := none }

/-- A logger configured with `input_data_shape = (2, 3)`. -/
def ctxShape23 : Ctx := { inputShape := some [2, 3] }

/-- A value on which both `json.dumps` and `str` raise caught exception
types, and which reaches the default branch. -/
def vBad : PyValue :=
  .mk { typeName := "<class 'Weird'>", jsonDumps := none, strRaises := true } []

/-- A value on which `json.dumps` raises but `str` succeeds. -/
def vStrOnly : PyValue :=
  .mk { typeName := "<class 'Weird'>", jsonDumps := none, strRaises := false,
        strF := "weird-object" } []

/-- Logging enabled but the log file cannot be opened for append. -/
def ctxLogBroken : Ctx := { logging := true, logWriteOk := false }

/-- Logging enabled with a writable log file. -/
def ctxLogOk : Ctx := { logging := true, logWriteOk := true }

/-- A list element whose `str()` is 1000 characters long. -/
def bigElem : PyValue := .mk { strF := String.mk (List.replicate 1000 'a') } []

/-- A Python list whose total stringified element length is 1000. -/
def vBigList : PyValue :=
  .mk { typeName := "<class 'list'>", isList := true } [bigElem]

/-- A `torch.utils.data.DataLoader` instance: its runtime type name
contains `"data"` and `"dataloader"`, and its exact type is in the
excluded-type list. -/
def vDataLoader : PyValue :=
  .mk { typeName := "<class 'torch.utils.data.dataloader.DataLoader'>",
        isDataLoaderTy := true } []

/-- A `torch.optim` optimizer instance: non-string, non-callable, with a
collaborator-produced optimizer serialization. -/
def vOptim : PyValue :=
  .mk { typeName := "<class 'torch.optim.adam.Adam'>",
        hasDictAttr := true,
        instAttrs := [("defaults", JVal.obj [])],
        optimSer := JVal.obj [("param_groups", JVal.arr [])] } []

/-- A remote state holding one notebook record `d/9` with checksum
`"abc"`. -/
def rmOne : Remote := { records := [("d/9", "abc")], freshId := "d/10" }

/-- A notebook environment whose path lookup finds `d/9` and whose
current checksum is `"abc"` (unchanged notebook). -/
def nbEnvSame : NbEnv :=
  { file := some "train.ipynb", lookupId := some "d/9",
    nbChecksum := some "abc", datasetUpload := .nothing }

/-- A logger state holding a notebook record id and a current
checkpoint. -/
def stWithNb : LoggerSt :=
  { notebookRecordId := some "d/9", currentCheckpointId := some "d/7",
    datasetId := .nothing }

/-- A save environment: the dataset upload returns one id, record
creation returns `d/11`. -/
def envSave : SaveEnv := { datasetUpload := .one "d/5", newRecordId := "d/11" }

theorem procVar_excluded (ctx : Ctx) (hn : List String) (st : MState)
    (k : String) (v : PyValue) (h : included ctx k v = false) :
    procVar ctx hn st (k, v) = .ok st := by
  simp [procVar, h]

theorem included_false_of_data (ctx : Ctx) (k : String) (v : PyValue)
    (h : strHasSub (casefold v.info.typeName) "data" = true) :
    included ctx k v = false := by
  simp [included, h]

theorem included_false_of_dataloader (ctx : Ctx) (k : String) (v : PyValue)
    (h : strHasSub (casefold v.info.typeName) "dataloader" = true) :
    included ctx k v = false := by
  simp [included, h]

theorem runVars_append (ctx : Ctx) (hn : List String) (st : MState)
    (l1 l2 : List (String × PyValue)) :
    runVars ctx hn st (l1 ++ l2) =
      match runVars ctx hn st l1 with
      | .ok st2 => runVars ctx hn st2 l2
      | .error e => .error e := by
  induction l1 generalizing st with
  | nil => simp [runVars]
  | cons kv rest ih =>
    simp only [List.cons_append, runVars]
    cases procVar ctx hn st kv with
    | ok st2 => exact ih st2
    | error e => rfl

theorem allRepr_dinsert (l : List (String × MEntry)) (k : String) (e : MEntry)
    (hl : allRepr l = true) (he : entryRepr e = true) :
    allRepr (dinsert l k e) = true := by
  induction l with
  | nil => simp [dinsert, allRepr, he]
  | cons p rest ih =>
    simp only [allRepr, List.all_cons, Bool.and_eq_true] at hl
    obtain ⟨h1, h2⟩ := hl
    cases hk : p.1 == k with
    | true => simp [dinsert, hk, allRepr, he, h2]
    | false =>
      have ih2 := ih h2
      simp only [allRepr] at ih2
      simp [dinsert, hk, allRepr, h1, ih2]

theorem allRepr_dinsertAll (xs : List (String × MEntry)) :
    ∀ l, allRepr l = true → (∀ p ∈ xs, entryRepr p.2 = true) →
      allRepr (dinsertAll l xs) = true := by
  induction xs with
  | nil =>
    intro l hl _
    simpa [dinsertAll] using hl
  | cons p rest ih =>
    intro l hl hx
    cases p with
    | mk k e =>
      simp only [dinsertAll]
      refine ih (dinsert l k e) ?_ ?_
      · exact allRepr_dinsert l k e hl (hx (k, e) (by simp))
      · intro q hq
        exact hx q (by simp [hq])

theorem recordAllRepr_mk (r : MetaRecord) (h1 : allRepr r.hyper = true)
    (h2 : allRepr r.arch = true) (h3 : allRepr r.params = true) :
    recordAllRepr r = true := by
  unfold recordAllRepr
  rw [Bool.and_eq_true, Bool.and_eq_true]
  exact ⟨⟨h1, h2⟩, h3⟩

theorem recordAllRepr_split (r : MetaRecord) (h : recordAllRepr r = true) :
    allRepr r.hyper = true ∧ allRepr r.arch = true ∧ allRepr r.params = true := by
  unfold recordAllRepr at h
  rw [Bool.and_eq_true, Bool.and_eq_true] at h
  exact ⟨h.1.1, h.1.2, h.2⟩

theorem finalize_repr (ctx : Ctx) (r : MetaRecord)
    (h : recordAllRepr r = true) : recordAllRepr (finalize ctx r) = true := by
  obtain ⟨h1, h2, h3⟩ := recordAllRepr_split r h
  refine recordAllRepr_mk _ h1 h2 ?_
  refine allRepr_dinsertAll _ _ ?_ ?_
  · refine allRepr_dinsertAll _ _ h3 ?_
    intro p hp
    simp only [List.mem_map] at hp
    obtain ⟨q, _, rfl⟩ := hp
    rfl
  · intro p hp
    simp only [List.mem_cons, List.not_mem_nil, or_false] at hp
    rcases hp with h | h
    · subst h; rfl
    · subst h; rfl

theorem archBranch_repr (st st2 : MState) (k : String) (v : PyValue)
    (hr : recordAllRepr st.md = true) (h : archBranch st k v = .ok st2) :
    recordAllRepr st2.md = true := by
  obtain ⟨r1, r2, r3⟩ := recordAllRepr_split st.md hr
  unfold archBranch at h
  split at h
  · cases h
    exact recordAllRepr_mk _ r1 (allRepr_dinsert _ _ _ r2 rfl) r3
  · cases h
    exact recordAllRepr_mk _ r1 (allRepr_dinsert _ _ _ r2 rfl) r3

theorem tensorBranch_repr (ctx : Ctx) (st st2 : MState) (k : String) (v : PyValue)
    (hr : recordAllRepr st.md = true) (h : tensorBranch ctx st k v = .ok st2) :
    recordAllRepr st2.md = true := by
  obtain ⟨r1, r2, r3⟩ := recordAllRepr_split st.md hr
  unfold tensorBranch at h
  split at h
  case h_1 shp hshp =>
    split at h
    · split at h
      case h_1 j hj =>
        cases h
        exact recordAllRepr_mk _ r1 r2
          (allRepr_dinsert _ _ _ r3 (by simp [entryRepr, hj]))
      case h_2 hj =>
        cases h
        exact recordAllRepr_mk _ r1 r2 (allRepr_dinsert _ _ _ r3 rfl)
    · cases h; exact hr
  case h_2 => cases h; exact hr

theorem pathBranch_repr (st st2 : MState) (k : String) (v : PyValue)
    (hr : recordAllRepr st.md = true) (h : pathBranch st k v = .ok st2) :
    recordAllRepr st2.md = true := by
  obtain ⟨r1, r2, r3⟩ := recordAllRepr_split st.md hr
  unfold pathBranch at h
  split at h
  · cases h
  · cases h
    exact recordAllRepr_mk _ r1 r2 (allRepr_dinsert _ _ _ r3 rfl)

theorem attrBranch_repr (st st2 : MState) (k : String) (v : PyValue)
    (hr : recordAllRepr st.md = true) (h : attrBranch st k v = .ok st2) :
    recordAllRepr st2.md = true := by
  obtain ⟨r1, r2, r3⟩ := recordAllRepr_split st.md hr
  unfold attrBranch at h
  split at h
  · cases h
    exact recordAllRepr_mk _ r1 r2 (allRepr_dinsert _ _ _ r3 rfl)
  · cases h; exact hr

theorem dictBranch_repr (st st2 : MState) (k : String) (v : PyValue)
    (hr : recordAllRepr st.md = true) (h : dictBranch st k v = .ok st2) :
    recordAllRepr st2.md = true := by
  obtain ⟨r1, r2, r3⟩ := recordAllRepr_split st.md hr
  unfold dictBranch at h
  split at h
  · split at h
    case h_1 j hj =>
      cases h
      exact recordAllRepr_mk _ r1 r2
        (allRepr_dinsert _ _ _ r3 (by simp [entryRepr, hj]))
    case h_2 hj =>
      split at h
      · cases h
      · cases h
        exact recordAllRepr_mk _ r1 r2 (allRepr_dinsert _ _ _ r3 rfl)
  · cases h; exact hr

theorem defaultBranch_repr (ctx : Ctx) (st st2 : MState) (k : String) (v : PyValue)
    (hr : recordAllRepr st.md = true) (h : defaultBranch ctx st k v = .ok st2) :
    recordAllRepr st2.md = true := by
  obtain ⟨r1, r2, r3⟩ := recordAllRepr_split st.md hr
  unfold defaultBranch at h
  split at h
  case h_1 j hj =>
    cases h
    exact recordAllRepr_mk _ r1 r2
      (allRepr_dinsert _ _ _ r3 (by simp [entryRepr, hj]))
  case h_2 hj =>
    split at h
    · cases h
      exact recordAllRepr_mk _ r1 r2 (allRepr_dinsert _ _ _ r3 rfl)
    · split at h
      · split at h
        · cases h; exact hr
        · cases h
      · cases h; exact hr

theorem procVar_preserves_repr (ctx : Ctx) (hn : List String) (st st2 : MState)
    (k : String) (v : PyValue)
    (hk : hn.contains k = false) (hl : v.info.isList = false)
    (hr : recordAllRepr st.md = true)
    (h : procVar ctx hn st (k, v) = .ok st2) :
    recordAllRepr st2.md = true := by
  obtain ⟨r1, r2, r3⟩ := recordAllRepr_split st.md hr
  simp only [procVar] at h
  split at h
  case isFalse => cases h; exact hr
  case isTrue hinc =>
    split at h
    case isTrue harch => exact archBranch_repr st st2 k v hr h
    case isFalse harch =>
      split at h
      · cases h
        exact recordAllRepr_mk _ r1 (allRepr_dinsert _ _ _ r2 rfl) r3
      · split at h
        case isTrue hli =>
          rw [hl] at hli
          exact absurd hli (by decide)
        case isFalse hli =>
          split at h
          case isTrue hhn =>
            rw [hk] at hhn
            exact absurd hhn (by decide)
          case isFalse hhn =>
            split at h
            · exact tensorBranch_repr ctx st st2 k v hr h
            · split at h
              · exact pathBranch_repr st st2 k v hr h
              · split at h
                · exact attrBranch_repr st st2 k v hr h
                · split at h
                  · exact dictBranch_repr st st2 k v hr h
                  · exact defaultBranch_repr ctx st st2 k v hr h

theorem runVars_preserves_repr (ctx : Ctx) (lv : List (String × PyValue))
    (hn : List String)
    (hp : ∀ kv ∈ lv, hn.contains kv.1 = false ∧ kv.2.info.isList = false) :
    ∀ st st2, recordAllRepr st.md = true → runVars ctx hn st lv = .ok st2 →
      recordAllRepr st2.md = true := by
  induction lv with
  | nil =>
    intro st st2 hr h
    simp only [runVars] at h
    cases h
    exact hr
  | cons kv rest ih =>
    intro st st2 hr h
    simp only [runVars] at h
    cases hpv : procVar ctx hn st kv with
    | error e => rw [hpv] at h; cases h
    | ok stm =>
      rw [hpv] at h
      have hhd := hp kv (by simp)
      have hm := procVar_preserves_repr ctx hn st stm kv.1 kv.2 hhd.1 hhd.2 hr hpv
      exact ih (fun q hq => hp q (by simp [hq])) stm st2 hm h

/-- C1 (amended): every entry stored in the record returned by
`getMetadata` is JSON-representable, provided no processed pair is
hyperparameter-named or list-valued — those two branches store values
with no representability check (the counterexample shows a
hyperparameter-named tensor stored raw when `input_data_shape` is not
configured). -/
theorem getMetadata_repr_outside_hyper_and_lists (ctx : Ctx)
    (lv : List (String × PyValue)) (hn : List String) (st : MState)
    (hp : ∀ kv ∈ lv, hn.contains kv.1 = false ∧ kv.2.info.isList = false)
    (h : getMetadata ctx (some lv) (some hn) = .ok st) :
    recordAllRepr st.md = true := by
  simp only [getMetadata] at h
  cases hrv : runVars ctx hn {} lv with
  | error e => rw [hrv] at h; cases h
  | ok stm =>
    rw [hrv] at h
    cases h
    have h0 : recordAllRepr (MState.md {}) = true := rfl
    have := runVars_preserves_repr ctx lv hn hp {} stm h0 hrv
    exact finalize_repr ctx stm.md this

/-- Witness for the amended C1 theorem at the one-variable snapshot
`[("x", vStrOnly)]` with an empty hyperparameter set. -/
theorem getMetadata_repr_outside_hyper_and_lists_witness :
    (∀ kv ∈ [("x", vStrOnly)],
        ([] : List String).contains kv.1 = false ∧ kv.2.info.isList = false) ∧
    recordAllRepr
      (MState.md
        { md := { params := [("x", .ofStr "weird-object"),
                             ("user", .ofStr "user0"),
                             ("timestamp", .ofStr "2026-01-01 00:00:00")] } }) = true := by
  constructor
  · intro kv hkv
    simp only [List.mem_singleton] at hkv
    subst hkv
    exact ⟨rfl, rfl⟩
  · exact getMetadata_repr_outside_hyper_and_lists {} [("x", vStrOnly)] [] _
      (by intro kv hkv
          simp only [List.mem_singleton] at hkv
          subst hkv
          exact ⟨rfl, rfl⟩)
      rfl

/-- C1 (counterexample): with `input_data_shape` not configured, a
hyperparameter-named tensor is stored in `"Model Hyperparameters"` as
the raw object — `json.dumps` fails on it — so the returned record is
not JSON-representable and the value was not omitted. -/
theorem getMetadata_stores_raw_tensor_counterexample :
    (getMetadata ctxShapeNone (some [("lr", vTensor)]) (some ["lr"])).map
        (fun st => recordAllRepr st.md) = .ok false ∧
    (getMetadata ctxShapeNone (some [("lr", vTensor)]) (some ["lr"])).map
        (fun st => dlookup st.md.hyper "lr") = .ok (some (.ofVal vTensor)) :=
  ⟨rfl, rfl⟩

/-- C7: `getMetadata` raises `ValueError` when `local_vars` or
`model_hyperparameters` is `None`, and raises no such configuration
error when both are supplied. -/
theorem getMetadata_requires_vars_and_hyper (ctx : Ctx)
    (lv : List (String × PyValue)) (hn : List String)
    (mh : Option (List String)) :
    getMetadata ctx none mh = .error (.valueError "local_vars cannot be None") ∧
    getMetadata ctx (some lv) none =
      .error (.valueError "model_hyperparameters cannot be None") ∧
    isConfigError (getMetadata ctx (some lv) (some hn)) = false := by
  refine ⟨rfl, rfl, ?_⟩
  simp only [getMetadata]
  cases runVars ctx hn {} lv with
  | error e => rfl
  | ok stm => rfl

/-- C5 (amended): a pair whose value's runtime type name contains
`"data"` or `"dataloader"` (case-insensitively) is excluded entirely:
`getMetadata` of a snapshot containing the pair equals `getMetadata` of
the snapshot with the pair removed, so the pair contributes nothing to
the record.  (The counterexample shows the claim's further assertion —
that the *name* appears nowhere in the record regardless of the name —
fails for names that coincide with the fixed record keys.) -/
theorem getMetadata_data_typed_contributes_nothing (ctx : Ctx)
    (hn : List String) (vars1 vars2 : List (String × PyValue))
    (k : String) (v : PyValue)
    (hd : strHasSub (casefold v.info.typeName) "data" = true ∨
          strHasSub (casefold v.info.typeName) "dataloader" = true) :
    getMetadata ctx (some (vars1 ++ (k, v) :: vars2)) (some hn) =
      getMetadata ctx (some (vars1 ++ vars2)) (some hn) := by
  have hinc : included ctx k v = false := by
    cases hd with
    | inl h => exact included_false_of_data ctx k v h
    | inr h => exact included_false_of_dataloader ctx k v h
  simp only [getMetadata]
  have hrv : runVars ctx hn {} (vars1 ++ (k, v) :: vars2) =
      runVars ctx hn {} (vars1 ++ vars2) := by
    rw [runVars_append, runVars_append]
    cases runVars ctx hn {} vars1 with
    | error e => rfl
    | ok st2 =>
      show runVars ctx hn st2 ((k, v) :: vars2) = runVars ctx hn st2 vars2
      simp only [runVars, procVar_excluded ctx hn st2 k v hinc]
  rw [hrv]

/-- Witness for the amended C5 theorem: a `DataLoader` in the snapshot
contributes nothing. -/
theorem getMetadata_data_typed_contributes_nothing_witness :
    (strHasSub (casefold vDataLoader.info.typeName) "data" = true ∨
     strHasSub (casefold vDataLoader.info.typeName) "dataloader" = true) ∧
    getMetadata {} (some ([] ++ ("dl", vDataLoader) :: [])) (some []) =
      getMetadata {} (some ([] ++ [])) (some []) :=
  ⟨Or.inl rfl,
   getMetadata_data_typed_contributes_nothing {} [] [] [] "dl" vDataLoader
     (Or.inl rfl)⟩

/-- C5 (counterexample): a `DataLoader` value named `"user"` is excluded
from processing, yet the name `"user"` does appear in the returned
record, because `getMetadata` unconditionally adds the fixed `user`
(and `timestamp`, notebook) keys at the end — refuting "the name
appears nowhere in the record ... regardless of the name". -/
theorem getMetadata_dataloader_named_user_counterexample :
    strHasSub (casefold vDataLoader.info.typeName) "data" = true ∧
    (getMetadata {} (some [("user", vDataLoader)]) (some [])).map
      (fun st => recordHasKey st.md "user") = .ok true :=
  ⟨rfl, rfl⟩

/-- C6: the classification of a non-excluded pair follows the source's
fixed priority: (1) an architecture-named, non-string value whose
casefolded name is an optimizer alias is serialized via optimizer-state
extraction; (2) any other architecture-named value is serialized via
model-state extraction merged with its extracted instance attributes;
(3) a non-string value with an optimizer-alias name outside the
architecture names is serialized via optimizer-state extraction — and
rule (3) fires no matter what kind of value it is (first match wins). -/
theorem procVar_priority (ctx : Ctx) (hn : List String) (st : MState)
    (k : String) (v : PyValue) (hinc : included ctx k v = true) :
    (ctx.archNames.contains k = true → v.info.isStr = false →
      isOptimName k = true →
      procVar ctx hn st (k, v) = .ok (storeArch st k (.ofJson v.info.optimSer))) ∧
    (ctx.archNames.contains k = true →
      (v.info.isStr = true ∨ isOptimName k = false) →
      procVar ctx hn st (k, v) =
        .ok (storeArch st k (.ofObj (dictUpdJ v.info.modelSer v.info.instAttrs)))) ∧
    (ctx.archNames.contains k = false → v.info.isStr = false →
      isOptimName k = true →
      procVar ctx hn st (k, v) = .ok (storeArch st k (.ofJson v.info.optimSer))) := by
  refine ⟨?_, ?_, ?_⟩
  · intro h1 h2 h3
    have hc : (!v.info.isStr && isOptimName k) = true := by rw [h2, h3]; rfl
    simp only [procVar, archBranch, hinc, h1, hc, eq_self_iff_true, if_true]
  · intro h1 h2
    have hc : (!v.info.isStr && isOptimName k) = false := by
      rcases h2 with h2 | h2
      · rw [h2]; rfl
      · rw [h2, Bool.and_false]
    simp only [procVar, archBranch, hinc, h1, hc, eq_self_iff_true, if_true,
      Bool.false_eq_true, if_false]
  · intro h1 h2 h3
    have hc : (!v.info.isStr && isOptimName k) = true := by rw [h2, h3]; rfl
    simp only [procVar, hinc, h1, hc, eq_self_iff_true, if_true,
      Bool.false_eq_true, if_false]

/-- Witness for the C6 theorem: an optimizer instance named `"optim"`
outside `model_dict` is serialized via optimizer-state extraction even
though it also has a non-empty `__dict__`. -/
theorem procVar_priority_witness :
    included {} "optim" vOptim = true ∧
    procVar {} [] {} ("optim", vOptim) =
      .ok (storeArch {} "optim" (.ofJson vOptim.info.optimSer)) :=
  ⟨rfl, (procVar_priority {} [] {} "optim" vOptim rfl).2.2 rfl rfl rfl⟩

/-- C2 (amended): in the default branch of `getMetadata`, a value whose
direct `json.dumps` fails but whose `str` conversion succeeds is stored
as its string form without raising; a value failing both conversions is
not stored (the record is returned unchanged for that key) and, when
logging is enabled and the log file can be opened, exactly one
diagnostic entry is appended for it.  (The counterexample shows the
claim's further assertion — that the log write itself never raises or
aborts metadata assembly — fails: the `with open(...)` is unguarded.) -/
theorem procVar_fallback_chain (ctx : Ctx) (hn : List String) (st : MState)
    (k : String) (v : PyValue)
    (h1 : included ctx k v = true)
    (h2 : ctx.archNames.contains k = false)
    (h3 : (!v.info.isStr && isOptimName k) = false)
    (h4 : v.info.isList = false)
    (h5 : hn.contains k = false)
    (h6 : v.info.isTensor = false)
    (h7 : (v.info.isPath || v.info.isDevice) = false)
    (h8 : v.info.hasDictAttr = false)
    (h9 : (v.info.isDict && v.info.dictLen != 0) = false) :
    (v.info.jsonDumps = none → v.info.strRaises = false →
      procVar ctx hn st (k, v) = .ok (storeParam st k (.ofStr v.info.strF))) ∧
    (v.info.jsonDumps = none → v.info.strRaises = true → ctx.logging = true →
      ctx.logWriteOk = true →
      procVar ctx hn st (k, v) =
        .ok { st with log := st.log ++ [⟨k, v.info.typeName⟩] }) := by
  constructor
  · intro hj hs
    simp only [procVar, defaultBranch, h1, h2, h3, h4, h5, h6, h7, h8, h9, hj,
      hs, Bool.not_false, eq_self_iff_true, if_true, Bool.false_eq_true,
      if_false]
  · intro hj hs hlog hwr
    simp only [procVar, defaultBranch, h1, h2, h3, h4, h5, h6, h7, h8, h9, hj,
      hs, hlog, hwr, Bool.not_true, eq_self_iff_true, if_true,
      Bool.false_eq_true, if_false]

/-- Witness for the amended C2 theorem: the string fallback stores the
string form, and a double failure with working logging appends exactly
one log entry while leaving the record unchanged. -/
theorem procVar_fallback_chain_witness :
    procVar ctxLogOk [] {} ("x", vStrOnly) =
      .ok (storeParam {} "x" (.ofStr "weird-object")) ∧
    procVar ctxLogOk [] {} ("y", vBad) =
      .ok { log := [⟨"y", "<class 'Weird'>"⟩] } :=
  ⟨(procVar_fallback_chain ctxLogOk [] {} "x" vStrOnly rfl rfl rfl rfl rfl rfl
      rfl rfl rfl).1 rfl rfl,
   (procVar_fallback_chain ctxLogOk [] {} "y" vBad rfl rfl rfl rfl rfl rfl
      rfl rfl rfl).2 rfl rfl rfl rfl⟩

/-- C2 (counterexample): with logging enabled and a log file that cannot
be opened, a value failing both conversions makes `getMetadata` raise —
the unguarded `with open(self.log_file_path, "a")` propagates the I/O
failure and aborts metadata assembly. -/
theorem getMetadata_log_write_raises_counterexample :
    getMetadata ctxLogBroken (some [("mystery", vBad)]) (some []) =
      .error (.run .ioErr) := rfl

set_option maxRecDepth 100000 in
/-- C3: evaluation at the failing input — a list whose total stringified
element length is 1000 is absent from the returned record, and the
emitted-warnings channel stays empty: the source evaluates
`Warning(warning_message)`, which constructs an exception object and
discards it, so no warning reaches the caller. -/
theorem getMetadata_long_list_dropped_without_warning :
    (getMetadata {} (some [("batch", vBigList)]) (some [])).map
      (fun st => (recordHasKey st.md "batch", st.warns)) = .ok (false, []) := rfl

/-- C4 (amended): for a non-excluded tensor/array hyperparameter with
`input_data_shape` configured, the value is retained in
`"Model Hyperparameters"` (as `value.tolist()`) exactly when its shape
is smaller than `input_data_shape` under Python's lexicographic tuple
ordering — not the spec's element-wise ordering — and omitted
otherwise. -/
theorem procVar_hyper_tensor_tuple_lt (ctx : Ctx) (hn : List String)
    (st : MState) (k : String) (v : PyValue) (shp : List Nat)
    (h1 : included ctx k v = true)
    (h2 : ctx.archNames.contains k = false)
    (h3 : (!v.info.isStr && isOptimName k) = false)
    (h4 : v.info.isList = false)
    (h5 : hn.contains k = true)
    (h6 : v.info.isTensor = true)
    (h7 : ctx.inputShape = some shp) :
    (tupLt v.info.shape shp = true →
      procVar ctx hn st (k, v) = .ok (storeHyper st k (.ofTolist v))) ∧
    (tupLt v.info.shape shp = false → procVar ctx hn st (k, v) = .ok st) := by
  constructor
  · intro hlt
    simp only [procVar, hyperBranch, h1, h2, h3, h4, h5, h6, h7,
      Option.isSome_some, Option.getD_some, Bool.and_self, hlt,
      eq_self_iff_true, if_true, Bool.false_eq_true, if_false]
  · intro hlt
    simp only [procVar, hyperBranch, h1, h2, h3, h4, h5, h6, h7,
      Option.isSome_some, Option.getD_some, Bool.and_self, hlt,
      eq_self_iff_true, if_true, Bool.false_eq_true, if_false]

/-- Witness for the amended C4 theorem at shape `(1, 5000)` against
`input_data_shape = (2, 3)`. -/
theorem procVar_hyper_tensor_tuple_lt_witness :
    procVar ctxShape23 ["lr"] {} ("lr", vTensor) =
      .ok (storeHyper {} "lr" (.ofTolist vTensor)) :=
  (procVar_hyper_tensor_tuple_lt ctxShape23 ["lr"] {} "lr" vTensor [2, 3]
    rfl rfl rfl rfl rfl rfl rfl).1 rfl

/-- C4 (counterexample): the shape `(1, 5000)` is *not* element-wise
smaller than `(2, 3)`, yet Python's tuple comparison
`(1, 5000) < (2, 3)` is true, so the hyperparameter tensor is retained
in `"Model Hyperparameters"` — refuting "retained exactly when its shape
is element-wise smaller". -/
theorem hyper_tensor_elemwise_counterexample :
    specElemwiseSmaller [1, 5000] [2, 3] = false ∧
    tupLt [1, 5000] [2, 3] = true ∧
    (getMetadata ctxShape23 (some [("lr", vTensor)]) (some ["lr"])).map
      (fun st => dlookup st.md.hyper "lr") = .ok (some (.ofTolist vTensor)) :=
  ⟨rfl, rfl, rfl⟩

/-- C8: notebook resolution is idempotent on content.  When the lookup
finds an existing record whose stored checksum equals the notebook's
checksum, no record is created and the existing identifier is reused;
when there is no prior record, or the found record's checksum differs,
exactly one new notebook record is created (the remote record list grows
by exactly the one `(fresh id, new checksum)` pair). -/
theorem save_notebook_checksum_idempotent (env : NbEnv) (st : LoggerSt)
    (rm : Remote) (f i old ck : String)
    (hf : env.file = some f) (hd : strStarts f "d/" = false) :
    (env.lookupId = some i → rlookup rm i = some ck → env.nbChecksum = some ck →
      save_notebook env st rm = .ok ({ st with notebookRecordId := some i }, rm)) ∧
    (env.lookupId = none → st.notebookRecordId = none →
      env.nbChecksum = some ck →
      save_notebook env st rm =
        .ok ({ st with notebookRecordId := some rm.freshId,
                       datasetId := env.datasetUpload },
             { rm with records := rm.records ++ [(rm.freshId, ck)] })) ∧
    (env.lookupId = some i → rlookup rm i = some old → env.nbChecksum = some ck →
      old ≠ ck →
      save_notebook env st rm =
        .ok ({ st with notebookRecordId := some rm.freshId,
                       datasetId := env.datasetUpload },
             { rm with records := rm.records ++ [(rm.freshId, ck)] })) := by
  refine ⟨?_, ?_, ?_⟩
  · intro hl hr hck
    simp [save_notebook, hf, hd, hl, hr, hck]
  · intro hl hnb hck
    simp [save_notebook, hf, hd, hl, hnb, hck]
  · intro hl hr hck hne
    have hb : (ck != old) = true := by
      rw [bne_iff_ne]
      exact fun hh => hne hh.symm
    simp [save_notebook, hf, hd, hl, hr, hck, hb]

/-- Witness for the C8 theorem: re-resolving an unchanged notebook
(checksum `"abc"` both locally and in record `d/9`) leaves the remote
records untouched and reuses `d/9`. -/
theorem save_notebook_checksum_idempotent_witness :
    nbEnvSame.file = some "train.ipynb" ∧
    strStarts "train.ipynb" "d/" = false ∧
    save_notebook nbEnvSame stWithNb rmOne = .ok (stWithNb, rmOne) :=
  ⟨rfl, rfl,
   (save_notebook_checksum_idempotent nbEnvSame stWithNb rmOne "train.ipynb"
      "d/9" "x" "abc" rfl rfl).1 rfl rfl rfl⟩

/-- C9: after `reset()` clears the lineage pointer, the next `save`
builds a dependency list holding only the notebook and dataset
identifiers (no previous-checkpoint reference), and on success the
current-checkpoint pointer is replaced by the newly created record
identifier. -/
theorem save_after_reset (env : SaveEnv) (ctx : Ctx) (st : LoggerSt)
    (title : String) (lv : Option (List (String × PyValue)))
    (mh : Option (List String)) (m : MState)
    (h : getMetadata ctx lv mh = .ok m) :
    idsToAdd (normNbId st.notebookRecordId) (reset st).currentCheckpointId
        env.datasetUpload =
      optList (normNbId st.notebookRecordId) ++ dsList env.datasetUpload ∧
    save env ctx (reset st) title true lv mh =
      ([SvcCall.uploadDataset] ++
         (if (idsToAdd (normNbId st.notebookRecordId) none
                env.datasetUpload).isEmpty then []
          else [SvcCall.addDerivedFrom
                 (idsToAdd (normNbId st.notebookRecordId) none
                   env.datasetUpload)]) ++
       [SvcCall.createRecord title, SvcCall.uploadFile env.newRecordId],
       .ok { notebookRecordId := normNbId st.notebookRecordId,
             currentCheckpointId := some env.newRecordId,
             datasetId := env.datasetUpload }) := by
  constructor
  · cases env.datasetUpload <;> simp [idsToAdd, optList, dsList, reset]
  · simp only [save, reset, h, eq_self_iff_true, if_true]

/-- Witness for the C9 theorem: a `reset` logger with notebook `d/9`
saves with dependency list `["d/9", "d/5"]` — no previous checkpoint —
and ends pointing at the new record `d/11`. -/
theorem save_after_reset_witness :
    idsToAdd (some "d/9") none (DsId.one "d/5") = ["d/9", "d/5"] ∧
    save envSave {} (reset stWithNb) "ckpt" true (some []) (some []) =
      ([SvcCall.uploadDataset, SvcCall.addDerivedFrom ["d/9", "d/5"],
        SvcCall.createRecord "ckpt", SvcCall.uploadFile "d/11"],
       .ok { notebookRecordId := some "d/9",
             currentCheckpointId := some "d/11",
             datasetId := DsId.one "d/5" }) :=
  save_after_reset envSave {} stWithNb "ckpt" (some []) (some [])
    { md := { params := [("user", .ofStr "user0"),
                         ("timestamp", .ofStr "2026-01-01 00:00:00")] } }
    rfl

/-- C10: calling `save` with `datafed=True` but a missing variable
snapshot (`local_vars=None`) or a missing hyperparameter set
(`model_hyperparameters=None`) raises the corresponding configuration
error only after `upload_dataset_to_DataFed` and `addDerivedFrom` have
already been issued to the data service — the remote side effects are
not atomic with the configuration check. -/
theorem save_config_error_after_remote_calls (env : SaveEnv) (ctx : Ctx)
    (st : LoggerSt) (title : String) (mh : Option (List String))
    (lv : List (String × PyValue)) (n : String)
    (h1 : st.notebookRecordId = some n) (h2 : (n.length != 0) = true) :
    save env ctx st title true none mh =
      ([SvcCall.uploadDataset,
        SvcCall.addDerivedFrom
          (idsToAdd (some n) st.currentCheckpointId env.datasetUpload)],
       .error (.valueError "local_vars cannot be None")) ∧
    save env ctx st title true (some lv) none =
      ([SvcCall.uploadDataset,
        SvcCall.addDerivedFrom
          (idsToAdd (some n) st.currentCheckpointId env.datasetUpload)],
       .error (.valueError "model_hyperparameters cannot be None")) := by
  have hnb : normNbId st.notebookRecordId = some n := by
    rw [h1]
    simp [normNbId, h2]
  have hne : (idsToAdd (some n) st.currentCheckpointId
      env.datasetUpload).isEmpty = false := by
    cases env.datasetUpload <;> simp [idsToAdd, optList, dsList]
  constructor
  · simp only [save, hnb, hne, getMetadata, eq_self_iff_true, if_true,
      Bool.false_eq_true, if_false]
    rfl
  · simp only [save, hnb, hne, getMetadata, eq_self_iff_true, if_true,
      Bool.false_eq_true, if_false]
    rfl

/-- Witness for the C10 theorem: with notebook `d/9` and current
checkpoint `d/7`, a `save` missing `local_vars` — and likewise one
missing `model_hyperparameters` — first uploads the dataset and builds
the dependency list `["d/9", "d/7", "d/5"]`, then raises the
corresponding configuration error. -/
theorem save_config_error_after_remote_calls_witness :
    stWithNb.notebookRecordId = some "d/9" ∧
    (("d/9" : String).length != 0) = true ∧
    (save envSave {} stWithNb "ckpt" true none (some []) =
      ([SvcCall.uploadDataset, SvcCall.addDerivedFrom ["d/9", "d/7", "d/5"]],
       .error (.valueError "local_vars cannot be None")) ∧
     save envSave {} stWithNb "ckpt" true (some []) none =
      ([SvcCall.uploadDataset, SvcCall.addDerivedFrom ["d/9", "d/7", "d/5"]],
       .error (.valueError "model_hyperparameters cannot be None"))) :=
  ⟨rfl, rfl,
   save_config_error_after_remote_calls envSave {} stWithNb "ckpt" (some [])
     [] "d/9" rfl rfl⟩
